import Mathlib

/-!
Shallow embedding of `sentrygin.go` (package sentrygin): a Gin middleware
that wraps each request in a Sentry span and reports panics to the Sentry
hub.  The sentry-go and gin collaborators are modelled abstractly as pure
operations on an explicit context value; the middleware's own code
(`New`, `handler.handle`, `handler.recoverWithSentry`) is translated
line by line, with Go's defer/panic/recover semantics made explicit via a
registration-ordered list of exit actions that run in reverse order.
-/

namespace Sentrygin

/-- Panic values carried through the Go panic/recover machinery.
Modelled as strings (an arbitrary opaque value type suffices for the
middleware, which never inspects the value). -/
abbrev PanicVal := String

/-- A Sentry hub handle.  `preexisting n` is a hub that was already bound
on the incoming context; `clonedDefault` models the result of
`sentry.CurrentHub().Clone()` (the clone of the process-wide hub). -/
inductive Hub where
  | preexisting (n : Nat)
  | clonedDefault
  deriving DecidableEq

/-- The request data visible to the middleware: method, URL path and the
headers used for trace continuation (`sentry.ContinueFromRequest`). -/
structure ReqData where
  method : String
  path : String
  headers : List (String × String)
  deriving DecidableEq

/-- The payload of a span context: operation, transaction name, and the
trace-continuation data captured from the request headers. -/
structure SpanData where
  op : String
  name : String
  cont : List (String × String)
  deriving DecidableEq

/-- A Go `context.Context` as observed through the keys this middleware
touches: the Sentry hub (`sentry.SetHubOnContext`), the span context
(`span.Context()`), and the request stored under
`sentry.RequestContextKey` (`context.WithValue`). -/
structure Ctx where
  hub : Option Hub
  spanCtx : Option SpanData
  requestVal : Option ReqData
  deriving DecidableEq

/-- An `*http.Request`: its data plus its execution context
(`r.Context()` / `r.WithContext`). -/
structure Request where
  data : ReqData
  ctx : Ctx
  deriving DecidableEq

/-- `r.Context()` -/
def Request.context (r : Request) : Ctx := r.ctx

/-- `r.WithContext(ctx)` -/
def Request.withContext (r : Request) (ctx : Ctx) : Request := { r with ctx := ctx }

/-- `sentry.GetHubFromContext(ctx)` -/
def GetHubFromContext (ctx : Ctx) : Option Hub := ctx.hub

/-- `sentry.SetHubOnContext(ctx, hub)` -/
def SetHubOnContext (ctx : Ctx) (h : Hub) : Ctx := { ctx with hub := some h }

/-- `sentry.CurrentHub().Clone()` -/
def currentHubClone : Hub := Hub.clonedDefault

/-- A span as returned by `sentry.StartSpan`: its data plus the context
it was started from. -/
structure Span where
  data : SpanData
  parentCtx : Ctx
  deriving DecidableEq

/-- `sentry.StartSpan(ctx, op, sentry.TransactionName(name), cont)` -/
def StartSpan (ctx : Ctx) (op name : String) (cont : List (String × String)) : Span :=
  { data := { op := op, name := name, cont := cont }, parentCtx := ctx }

/-- `span.Context()`: a context derived from the span's parent context,
carrying the span. -/
def Span.context (s : Span) : Ctx := { s.parentCtx with spanCtx := some s.data }

/-- `sentry.ContinueFromRequest(r)`: the trace-continuation data is read
from the request's headers. -/
def ContinueFromRequest (r : Request) : List (String × String) := r.data.headers

/-- `context.WithValue(ctx, sentry.RequestContextKey, r)` -/
def withRequestValue (ctx : Ctx) (r : Request) : Ctx :=
  { ctx with requestVal := some r.data }

/-- Observable effects of one execution of the middleware, in order of
occurrence.  `recoveryRan` marks the entry of the deferred
`recoverWithSentry` exit action (it runs on every exit path, even when
there is no panic to recover). -/
inductive Event where
  | spanStarted (op : String) (name : String) (cont : List (String × String))
  | scopeSetRequest (r : ReqData)
  | recoveryRan
  | reported (v : PanicVal) (ctx : Ctx)
  | flushed (timeout : Int)
  | spanFinished
  deriving DecidableEq

def Event.isReport : Event → Bool
  | .reported _ _ => true
  | _ => false

def Event.isFlush : Event → Bool
  | .flushed _ => true
  | _ => false

def Event.isSpanStart : Event → Bool
  | .spanStarted _ _ _ => true
  | _ => false

def Event.isSpanFinish : Event → Bool
  | .spanFinished => true
  | _ => false

/-- Index of the first occurrence of an event in a trace. -/
def idxOf : List Event → Event → Option Nat
  | [], _ => none
  | x :: xs, e => if x = e then some 0 else (idxOf xs e).map (· + 1)

/-- `occursBefore l a b`: the first occurrence of `a` in `l` is strictly
before the first occurrence of `b` (both must occur). -/
def occursBefore (l : List Event) (a b : Event) : Bool :=
  match idxOf l a, idxOf l b with
  | some i, some j => decide (i < j)
  | _, _ => false

/-- `time.Duration` is an `int64` count of nanoseconds; no arithmetic in
this code can overflow, so plain `Int` is faithful. -/
abbrev Duration := Int

/-- `time.Second` -/
def second : Duration := 1000000000

/-- The `Options` struct. -/
structure Options where
  repanic : Bool
  waitForDelivery : Bool
  timeout : Duration
  deriving DecidableEq

/-- The `handler` struct. -/
structure Handler where
  repanic : Bool
  waitForDelivery : Bool
  timeout : Duration
  deriving DecidableEq

/-- `New(opts Options) gin.HandlerFunc` (sentrygin.go lines 44-54):
defaults `Timeout` to 2s when it is zero, then builds the handler. -/
def New (opts : Options) : Handler :=
  let opts := if opts.timeout = 0 then { opts with timeout := 2 * second } else opts
  { repanic := opts.repanic
    timeout := opts.timeout
    waitForDelivery := opts.waitForDelivery }

/-- The environment supplied by the external Sentry collaborator: the
event identifier returned by `hub.RecoverWithContext` (`none` models a
nil `*sentry.EventID`). -/
structure Env where
  recoverResult : Option String
  deriving DecidableEq

/-- Whether the inner handler chain (`c.Next()`) returns normally or
panics with some value. -/
inductive NextBehavior where
  | normal
  | panics (v : PanicVal)
  deriving DecidableEq

/-- `handler.recoverWithSentry` (sentrygin.go lines 81-94), as a function
from the recovered panic value (`recover()`'s result: `none` when the
frame is not panicking) to the emitted events and the pending panic
after the call (`some err` iff `h.repanic` re-raises). -/
def recoverWithSentry (h : Handler) (env : Env) (r : Request)
    (recovered : Option PanicVal) : List Event × Option PanicVal :=
  match recovered with
  | none => ([], none)
  | some err =>
      let reportCtx := withRequestValue r.context r
      let eventID := env.recoverResult
      let evs := [Event.reported err reportCtx] ++
        (if eventID.isSome && h.waitForDelivery then [Event.flushed h.timeout] else [])
      (evs, if h.repanic then some err else none)

/-- The two deferred exit actions of `handler.handle`. -/
inductive ExitAction where
  | spanFinish
  | panicRecovery
  deriving DecidableEq

/-- The deferred actions of `handler.handle` in registration (program)
order: `defer span.Finish()` at line 71, then
`defer h.recoverWithSentry(hub, c.Request)` at line 76. -/
def handleDeferStack : List ExitAction := [ExitAction.spanFinish, ExitAction.panicRecovery]

/-- State threaded through the unwinding of `handle`: the pending panic
(if any) and the accumulated event trace. -/
structure UnwindState where
  pending : Option PanicVal
  events : List Event
  deriving DecidableEq

/-- Run one deferred exit action under Go semantics: `span.Finish()`
emits its event and leaves any pending panic untouched;
`recoverWithSentry` recovers the pending panic (clearing it) and
re-raises it when configured to. -/
def runExitAction (h : Handler) (env : Env) (r : Request)
    (st : UnwindState) (a : ExitAction) : UnwindState :=
  match a with
  | .spanFinish => { st with events := st.events ++ [Event.spanFinished] }
  | .panicRecovery =>
      let (evs, pending) := recoverWithSentry h env r st.pending
      { pending := pending, events := st.events ++ [Event.recoveryRan] ++ evs }

/-- What the caller of the handler function observes. -/
inductive Outcome where
  | normal
  | panicked (v : PanicVal)
  deriving DecidableEq

/-- The result of one execution of `handle`: the event trace, the
caller-observed outcome, the value of `c.Request` at the moment
`c.Next()` is invoked, and the hub used. -/
structure HandleResult where
  events : List Event
  outcome : Outcome
  nextSeenRequest : Request
  hub : Hub
  deriving DecidableEq

/-- The gin context as used by this middleware (`c.Request`). -/
structure GinContext where
  request : Request
  deriving DecidableEq

/-- `handler.handle(c *gin.Context)` (sentrygin.go lines 56-79).  Go's
deferred calls run in reverse registration order on every exit path, so
after `c.Next()` returns or panics the actions of `handleDeferStack` are
folded in reverse; the deferred `recoverWithSentry`'s arguments were
evaluated at registration time (line 76), i.e. on the request already
rebound to the span's context (line 73). -/
def handle (h : Handler) (env : Env) (c : GinContext) (next : NextBehavior) : HandleResult :=
  let ctx := c.request.context
  let hubCtx : Hub × Ctx :=
    match GetHubFromContext ctx with
    | some hb => (hb, ctx)
    | none =>
        let hb := currentHubClone
        (hb, SetHubOnContext ctx hb)
  let hub := hubCtx.1
  let ctx := hubCtx.2
  let span := StartSpan ctx "http.server"
    (c.request.data.method ++ " " ++ c.request.data.path)
    (ContinueFromRequest c.request)
  let r := c.request.withContext span.context
  let preEvents : List Event :=
    [Event.spanStarted span.data.op span.data.name span.data.cont,
     Event.scopeSetRequest r.data]
  let pending0 : Option PanicVal :=
    match next with
    | .normal => none
    | .panics v => some v
  let st := handleDeferStack.reverse.foldl (runExitAction h env r)
    { pending := pending0, events := preEvents }
  { events := st.events
    outcome := match st.pending with
      | none => Outcome.normal
      | some v => Outcome.panicked v
    nextSeenRequest := r
    hub := hub }

end Sentrygin

namespace Sentrygin

/-- A sample request with no hub, span or request value on its context. -/
def sampleRequest : Request :=
  { data := { method := "GET", path := "/orders/42", headers := [("sentry-trace", "abc")] }
    ctx := { hub := none, spanCtx := none, requestVal := none } }

/-- A sample gin context wrapping `sampleRequest`. -/
def sampleGin : GinContext := { request := sampleRequest }

/-- A sample handler built by `New` with an explicit 500ms timeout. -/
def sampleHandler : Handler :=
  New { repanic := false, waitForDelivery := true, timeout := 500000000 }

/-- Helper: the flush events of a panicking run are exactly one
`flushed h.timeout` when the recover call returned a non-nil event id
and `WaitForDelivery` is set, and none otherwise. -/
theorem handle_flush_filter (h : Handler) (env : Env) (c : GinContext) (v : PanicVal) :
    ((handle h env c (.panics v)).events.filter Event.isFlush) =
      (if env.recoverResult.isSome && h.waitForDelivery then [Event.flushed h.timeout]
       else []) := by
  unfold handle
  cases hhub : c.request.ctx.hub <;>
    simp [GetHubFromContext, hhub, handleDeferStack, runExitAction, recoverWithSentry,
      List.filter_append, Event.isFlush] <;>
    (intro a _ _ ha; subst ha; rfl)

/-- C1: for every request whose inner handler chain panics, the deferred
recovery emits exactly one report, carrying the recovered panic value
and a context in which the request object is stored (under
`sentry.RequestContextKey`); at most one report is emitted per panic. -/
theorem panic_reported_exactly_once (h : Handler) (env : Env) (c : GinContext) (v : PanicVal) :
    ((handle h env c (.panics v)).events.filter Event.isReport) =
      [Event.reported v
        (withRequestValue (handle h env c (.panics v)).nextSeenRequest.context
          (handle h env c (.panics v)).nextSeenRequest)] := by
  unfold handle
  cases hhub : c.request.ctx.hub <;>
    simp [GetHubFromContext, hhub, handleDeferStack, runExitAction, recoverWithSentry,
      List.filter_append, Event.isReport] <;>
    (intro a _ _ ha; subst ha; rfl)

/-- C2 (counterexample): the claim that the span-closing exit action
executes before the panic-recovery exit action is false.  In the source
the `defer span.Finish()` at line 71 is registered before the
`defer h.recoverWithSentry(...)` at line 76, so the deferred actions in
registration order are `[spanFinish, panicRecovery]`, and on a concrete
run the span-finish event does not occur before the recovery action. -/
theorem spanFinish_before_recovery_cex :
    handleDeferStack = [ExitAction.spanFinish, ExitAction.panicRecovery] ∧
    ¬ occursBefore (handle sampleHandler { recoverResult := none } sampleGin .normal).events
        Event.spanFinished Event.recoveryRan = true :=
  ⟨rfl, by decide⟩

/-- C2 (amended): on every exit from the per-request handler (normal
return or panic unwind), the panic-recovery exit action executes before
the span-closing exit action, because exit actions run in reverse order
of registration and the span-closing action was registered earlier than
the panic-recovery action. -/
theorem recovery_runs_before_spanFinish (h : Handler) (env : Env) (c : GinContext)
    (next : NextBehavior) :
    handleDeferStack = [ExitAction.spanFinish, ExitAction.panicRecovery] ∧
    occursBefore (handle h env c next).events Event.recoveryRan Event.spanFinished = true := by
  refine ⟨rfl, ?_⟩
  obtain ⟨rep, wfd, t⟩ := h
  obtain ⟨res⟩ := env
  unfold handle
  cases hhub : c.request.ctx.hub <;> cases next <;> cases res <;> cases wfd <;> cases rep <;>
    simp [GetHubFromContext, hhub, handleDeferStack, runExitAction, recoverWithSentry,
      occursBefore, idxOf]

/-- C3: with `Repanic = true`, after a panic of the inner chain the
handler re-raises the identical original panic value, so the caller
observes the same panic value. -/
theorem repanic_true_reraises_same_value (h : Handler) (env : Env) (c : GinContext)
    (v : PanicVal) (hrep : h.repanic = true) :
    (handle h env c (.panics v)).outcome = Outcome.panicked v := by
  unfold handle
  cases hhub : c.request.ctx.hub <;>
    simp [GetHubFromContext, hhub, handleDeferStack, runExitAction, recoverWithSentry, hrep]

/-- Witness for C3 at a concrete repanicking handler and panic value. -/
theorem repanic_true_reraises_same_value_witness :
    (handle { repanic := true, waitForDelivery := false, timeout := 2 * second }
      { recoverResult := none } sampleGin (.panics "boom")).outcome =
      Outcome.panicked "boom" :=
  repanic_true_reraises_same_value _ _ _ _ rfl

/-- C4: with `Repanic = false`, after a panic of the inner chain the
handler returns normally: the panic is absorbed. -/
theorem repanic_false_returns_normally (h : Handler) (env : Env) (c : GinContext)
    (v : PanicVal) (hrep : h.repanic = false) :
    (handle h env c (.panics v)).outcome = Outcome.normal := by
  unfold handle
  cases hhub : c.request.ctx.hub <;>
    simp [GetHubFromContext, hhub, handleDeferStack, runExitAction, recoverWithSentry, hrep]

/-- Witness for C4 at a concrete non-repanicking handler. -/
theorem repanic_false_returns_normally_witness :
    (handle { repanic := false, waitForDelivery := false, timeout := 2 * second }
      { recoverResult := none } sampleGin (.panics "boom")).outcome = Outcome.normal :=
  repanic_false_returns_normally _ _ _ _ rfl

/-- C5: after reporting a panic, the recovery step flushes with the
configured timeout if and only if the report returned a non-nil event
identifier and `WaitForDelivery` is true; in every other case no flush
occurs. -/
theorem flush_iff_eventID_and_waitForDelivery (h : Handler) (env : Env) (c : GinContext)
    (v : PanicVal) :
    ((handle h env c (.panics v)).events.filter Event.isFlush) =
      (if env.recoverResult.isSome && h.waitForDelivery then [Event.flushed h.timeout]
       else []) :=
  handle_flush_filter h env c v

/-- C6: a request that completes without a panic starts exactly one span
and finishes exactly one span, emits no report and no flush, returns
normally, and the recovery step observing no panic performs nothing. -/
theorem no_panic_one_span_no_report (h : Handler) (env : Env) (c : GinContext) :
    ((handle h env c .normal).events.filter Event.isSpanStart).length = 1 ∧
    ((handle h env c .normal).events.filter Event.isSpanFinish).length = 1 ∧
    (handle h env c .normal).events.filter Event.isReport = [] ∧
    (handle h env c .normal).events.filter Event.isFlush = [] ∧
    (handle h env c .normal).outcome = Outcome.normal ∧
    (∀ r, recoverWithSentry h env r none = ([], none)) := by
  refine ⟨?_, ?_, ?_, ?_, ?_, fun r => rfl⟩ <;>
  · unfold handle
    cases hhub : c.request.ctx.hub <;>
      simp [GetHubFromContext, hhub, handleDeferStack, runExitAction, recoverWithSentry,
        List.filter_append, Event.isSpanStart, Event.isSpanFinish, Event.isReport,
        Event.isFlush]

/-- C7: if no hub is on the incoming request's context, the handler uses
the clone of the process-wide current hub and that hub is reachable from
the context of the request the next handler receives; if a hub is
already present, that same hub is used and remains the one on the
context. -/
theorem hub_created_iff_absent (h : Handler) (env : Env) (c : GinContext)
    (next : NextBehavior) :
    (c.request.ctx.hub = none →
      (handle h env c next).hub = currentHubClone ∧
      (handle h env c next).nextSeenRequest.ctx.hub = some currentHubClone) ∧
    (∀ hb, c.request.ctx.hub = some hb →
      (handle h env c next).hub = hb ∧
      (handle h env c next).nextSeenRequest.ctx.hub = some hb) := by
  constructor
  · intro hnone
    unfold handle
    simp [GetHubFromContext, hnone, SetHubOnContext, StartSpan, Span.context,
      Request.withContext, Request.context, currentHubClone]
  · intro hb hsome
    unfold handle
    simp [GetHubFromContext, hsome, SetHubOnContext, StartSpan, Span.context,
      Request.withContext, Request.context]

/-- Witness for C7 at a concrete request carrying no hub. -/
theorem hub_created_iff_absent_witness :
    sampleGin.request.ctx.hub = none ∧
    ((handle sampleHandler { recoverResult := none } sampleGin .normal).hub =
        currentHubClone ∧
      (handle sampleHandler { recoverResult := none } sampleGin .normal).nextSeenRequest.ctx.hub =
        some currentHubClone) :=
  ⟨rfl, (hub_created_iff_absent sampleHandler { recoverResult := none } sampleGin .normal).1 rfl⟩

/-- C8: every run starts exactly one span, named by the request's method,
a space and the URL path, continuing the trace from the request's
headers; and the request the next handler sees is the original request
data rebound to the span's own context. -/
theorem span_name_and_context_replacement (h : Handler) (env : Env) (c : GinContext)
    (next : NextBehavior) :
    ((handle h env c next).events.filter Event.isSpanStart) =
      [Event.spanStarted "http.server"
        (c.request.data.method ++ " " ++ c.request.data.path)
        (ContinueFromRequest c.request)] ∧
    (handle h env c next).nextSeenRequest.data = c.request.data ∧
    (handle h env c next).nextSeenRequest.ctx.spanCtx =
      some { op := "http.server"
             name := c.request.data.method ++ " " ++ c.request.data.path
             cont := ContinueFromRequest c.request } := by
  refine ⟨?_, ?_, ?_⟩ <;>
  · unfold handle
    cases hhub : c.request.ctx.hub <;>
    cases next <;>
      simp [GetHubFromContext, hhub, handleDeferStack, runExitAction, recoverWithSentry,
        List.filter_append, Event.isSpanStart, StartSpan, Span.context, Request.withContext,
        ContinueFromRequest] <;>
    first
      | rfl
      | (intro a _ _ ha; subst ha; rfl)

/-- C9: `New` defaults a zero `Timeout` to 2 seconds, keeps a non-zero
`Timeout` as given, and carries `Repanic` and `WaitForDelivery` over
unchanged. -/
theorem new_defaults_timeout :
    (∀ r w, New { repanic := r, waitForDelivery := w, timeout := 0 } =
      { repanic := r, waitForDelivery := w, timeout := 2 * second }) ∧
    (∀ r w t, t ≠ 0 → New { repanic := r, waitForDelivery := w, timeout := t } =
      { repanic := r, waitForDelivery := w, timeout := t }) := by
  constructor
  · intro r w; rfl
  · intro r w t ht; simp [New, ht]

/-- Witness for C9 at a concrete non-zero timeout. -/
theorem new_defaults_timeout_witness :
    New { repanic := true, waitForDelivery := true, timeout := 7 } =
      { repanic := true, waitForDelivery := true, timeout := 7 } :=
  new_defaults_timeout.2 true true 7 (by decide)

/-- C10: a negative `Timeout` is not replaced with the 2 second default,
and that same negative duration is the one passed to the flush wait when
a panic is reported with `WaitForDelivery` set and a non-nil event id. -/
theorem negative_timeout_not_defaulted (r w : Bool) (t : Duration) (ht : t < 0)
    (env : Env) (c : GinContext) (v : PanicVal)
    (hid : env.recoverResult.isSome = true) :
    (New { repanic := r, waitForDelivery := w, timeout := t }).timeout = t ∧
    ((handle (New { repanic := r, waitForDelivery := true, timeout := t }) env c
        (.panics v)).events.filter Event.isFlush = [Event.flushed t]) := by
  have htz : t ≠ 0 := ne_of_lt ht
  constructor
  · simp [New, htz]
  · rw [handle_flush_filter]
    simp [New, htz, hid]

/-- Witness for C10 at timeout -5ns with a delivered event id. -/
theorem negative_timeout_not_defaulted_witness :
    ((-5 : Duration) < 0) ∧
    (New { repanic := false, waitForDelivery := true, timeout := -5 }).timeout = -5 ∧
    ((handle (New { repanic := false, waitForDelivery := true, timeout := -5 })
        { recoverResult := some "e1" } sampleGin (.panics "boom")).events.filter
        Event.isFlush = [Event.flushed (-5)]) :=
  ⟨by decide,
   (negative_timeout_not_defaulted false true (-5) (by decide)
     { recoverResult := some "e1" } sampleGin "boom" (by decide)).1,
   (negative_timeout_not_defaulted false true (-5) (by decide)
     { recoverResult := some "e1" } sampleGin "boom" (by decide)).2⟩

end Sentrygin
